import Mathlib

/-!
Shallow embedding of the 3D wireframe-cube rendering pipeline
(transform → perspective projection → screen mapping).

Coordinates are modelled as rationals; the trigonometric functions of the
host language (`Math.sin`, `Math.cos`, `Math.tan`) are passed in as explicit
function parameters `sinF cosF tanF : ℚ → ℚ`, so every definition stays
computable and theorems that need trigonometric identities state them as
hypotheses on those parameters.
-/

namespace CubeRepo

/-- 3D point `{x, y, z}` (Vertex3D in the source). -/
structure V3 where
  x : ℚ
  y : ℚ
  z : ℚ
deriving DecidableEq, Repr

/-- 2D point `{x, y}` (Vertex2D / normalized or pixel coordinates). -/
structure V2 where
  x : ℚ
  y : ℚ
deriving DecidableEq, Repr

/-- Squared Euclidean distance between two 3D points. -/
def sqDist (p q : V3) : ℚ :=
  (p.x - q.x) ^ 2 + (p.y - q.y) ^ 2 + (p.z - q.z) ^ 2

/-- WorldSpace.rotateY from src/src/models/objects/3d/world-space.ts:
rotates `p` about the Y axis through `c` by `angle`; `sinF`/`cosF` stand for
`Math.sin`/`Math.cos`. -/
def WorldSpace.rotateY (sinF cosF : ℚ → ℚ) (p c : V3) (angle : ℚ) : V3 :=
  let sin := sinF angle
  let cos := cosF angle
  let tx := p.x - c.x
  let tz := p.z - c.z
  let rx := tx * cos - tz * sin
  let rz := tx * sin + tz * cos
  { x := rx + c.x, y := p.y, z := rz + c.z }

/-- WorldSpace.rotateX from src/src/models/objects/3d/world-space.ts:
rotates `p` about the X axis through `c` by `angle`. -/
def WorldSpace.rotateX (sinF cosF : ℚ → ℚ) (p c : V3) (angle : ℚ) : V3 :=
  let sin := sinF angle
  let cos := cosF angle
  let ty := p.y - c.y
  let tz := p.z - c.z
  let ry := ty * cos - tz * sin
  let rz := ty * sin + tz * cos
  { x := p.x, y := ry + c.y, z := rz + c.z }

/-- Figure3D state (figure-3d.ts / part_005 Figure3D): derived `vertices`,
reference `base`, rotation pivot `center`, rotation state `yaw`/`pitch`,
translation `position`, and edge index pairs. -/
structure Figure3D where
  vertices : List V3
  base : List V3
  center : V3
  yaw : ℚ
  pitch : ℚ
  position : V3
  edges : List (ℕ × ℕ)
deriving DecidableEq, Repr

/-- Figure3D.applyTransform (figure-3d.ts variant, delegating to
WorldSpace.rotateY / WorldSpace.rotateX): rotate each base vertex by yaw
(Y axis) then pitch (X axis) about `center`, then translate by `pos`, and
store the result as `vertices`. -/
def Figure3D.applyTransform (sinF cosF : ℚ → ℚ) (fig : Figure3D)
    (base : List V3) (center : V3) (yaw pitch : ℚ) (pos : V3) : Figure3D :=
  let rotated := base.map (fun v =>
    WorldSpace.rotateX sinF cosF (WorldSpace.rotateY sinF cosF v center yaw) center pitch)
  { fig with vertices := rotated.map (fun v =>
      { x := v.x + pos.x, y := v.y + pos.y, z := v.z + pos.z }) }

/-- Figure3D.updateTransform (figure-3d.ts variant). -/
def Figure3D.updateTransform (sinF cosF : ℚ → ℚ) (fig : Figure3D) : Figure3D :=
  fig.applyTransform sinF cosF fig.base fig.center fig.yaw fig.pitch fig.position

/-- Figure3D.rotY from part_005 (inlined rotation helper; note the sign
convention differs from WorldSpace.rotateY). -/
def Figure3D.rotY5 (sinF cosF : ℚ → ℚ) (p c : V3) (rad : ℚ) : V3 :=
  let x := p.x - c.x
  let z := p.z - c.z
  let cs := cosF rad
  let sn := sinF rad
  { x := c.x + x * cs + z * sn, y := p.y, z := c.z - x * sn + z * cs }

/-- Figure3D.rotX from part_005. -/
def Figure3D.rotX5 (sinF cosF : ℚ → ℚ) (p c : V3) (rad : ℚ) : V3 :=
  let y := p.y - c.y
  let z := p.z - c.z
  let cs := cosF rad
  let sn := sinF rad
  { x := p.x, y := c.y + y * cs - z * sn, z := c.z + y * sn + z * cs }

/-- Figure3D.applyTransform from part_005 (same shape, its own rotY/rotX). -/
def Figure3D.applyTransform5 (sinF cosF : ℚ → ℚ) (fig : Figure3D)
    (base : List V3) (center : V3) (yaw pitch : ℚ) (pos : V3) : Figure3D :=
  let rotated := base.map (fun v =>
    Figure3D.rotX5 sinF cosF (Figure3D.rotY5 sinF cosF v center yaw) center pitch)
  { fig with vertices := rotated.map (fun v =>
      { x := v.x + pos.x, y := v.y + pos.y, z := v.z + pos.z }) }

/-- Figure3D.updateTransform from part_005. -/
def Figure3D.updateTransform5 (sinF cosF : ℚ → ℚ) (fig : Figure3D) : Figure3D :=
  fig.applyTransform5 sinF cosF fig.base fig.center fig.yaw fig.pitch fig.position

/-- CameraEye state (camera-eye.ts): position, orientation (yaw/pitch),
vertical field of view, near/far clip distances, and the width/height of the
screen it projects onto (used for the aspect ratio). -/
structure CameraEye where
  position : V3
  yaw : ℚ
  pitch : ℚ
  fovY : ℚ
  near : ℚ
  far : ℚ
  screenWidth : ℚ
  screenHeight : ℚ
deriving DecidableEq, Repr

/-- Projection result of the richer variant: normalized x/y plus the
camera-relative depth used for depth sorting. -/
structure ProjResult where
  x : ℚ
  y : ℚ
  distance : ℚ
deriving DecidableEq, Repr

/-- Camera-relative depth of a vertex after the camera's yaw rotation: the
`rotatedZ` computed inside camera-eye.ts projectNorm. -/
def CameraEye.depth (sinF cosF : ℚ → ℚ) (c : CameraEye) (vertex : V3) : ℚ :=
  (vertex.z - c.position.z) * cosF c.yaw - (vertex.x - c.position.x) * sinF c.yaw

/-- CameraEye.projectNorm (camera-eye.ts, richer variant): translate to
camera space, rotate by the camera's yaw, clip against near/far, apply the
perspective division with `tan(fovY/2)`, divide x by the aspect ratio,
reject non-finite results, and clip against the normalized `[-1, 1]` square.
In rational arithmetic the `Number.isFinite` rejection corresponds exactly
to a zero denominator in one of the divisions, which is the modelled check. -/
def CameraEye.projectNorm (sinF cosF tanF : ℚ → ℚ) (c : CameraEye)
    (vertex : V3) : Option ProjResult :=
  let X := vertex.x - c.position.x
  let Y := vertex.y - c.position.y
  let Z := vertex.z - c.position.z
  let cosYaw := cosF c.yaw
  let sinYaw := sinF c.yaw
  let rotatedX := X * cosYaw + Z * sinYaw
  let rotatedZ := Z * cosYaw - X * sinYaw
  if rotatedZ ≤ c.near ∨ rotatedZ ≥ c.far then none
  else
    let tanHalfFov := tanF (c.fovY / 2)
    let Xp := rotatedX / (rotatedZ * tanHalfFov)
    let Yp := Y / (rotatedZ * tanHalfFov)
    let aspect := c.screenWidth / c.screenHeight
    let Xp_adjusted := Xp / aspect
    if rotatedZ * tanHalfFov = 0 ∨ aspect = 0 then none
    else if Xp_adjusted < -1 ∨ Xp_adjusted > 1 ∨ Yp < -1 ∨ Yp > 1 then none
    else some { x := Xp_adjusted, y := Yp, distance := rotatedZ }

/-- Truncation toward zero, the rounding used by the `%` remainder operator
of the host language. -/
def truncQ (q : ℚ) : ℚ :=
  if 0 ≤ q then (⌊q⌋ : ℚ) else (⌈q⌉ : ℚ)

/-- Remainder with the sign of the dividend (`x % m` of the host language). -/
def jsRem (x m : ℚ) : ℚ :=
  x - m * truncQ (x / m)

/-- CameraEye.rotateYaw (camera-eye.ts): add the delta to yaw and reduce it
modulo `2π` (`piQ` stands for `Math.PI`). -/
def CameraEye.rotateYaw (piQ : ℚ) (c : CameraEye) (angleRadians : ℚ) : CameraEye :=
  { c with yaw := jsRem (c.yaw + angleRadians) (2 * piQ) }

/-- CameraEye.rotatePitch (camera-eye.ts): add the delta to pitch, then clamp
the result to `[-(π/2 - 0.01), π/2 - 0.01]`. -/
def CameraEye.rotatePitch (piQ : ℚ) (c : CameraEye) (angleRadians : ℚ) : CameraEye :=
  let p := c.pitch + angleRadians
  let maxPitch := piQ / 2 - 1 / 100
  { c with pitch := max (min p maxPitch) (-maxPitch) }

/-- Camera state of the simplified variant (part_005 CameraEye): a position
and a vertical field of view only. -/
structure Cam5 where
  position : V3
  fovY : ℚ
deriving DecidableEq, Repr

/-- CameraEye.projectNorm of the simplified variant (part_005): translate to
camera space, reject unless the depth is strictly positive, apply the
perspective division, divide x by the caller-supplied aspect ratio, and
reject non-finite results (modelled as a zero denominator). -/
def Cam5.projectNorm (tanF : ℚ → ℚ) (cam : Cam5) (p : V3) (aspect : ℚ) :
    Option V2 :=
  let cx := p.x - cam.position.x
  let cy := p.y - cam.position.y
  let cz := p.z - cam.position.z
  if ¬ cz > 0 then none
  else
    let t := tanF (cam.fovY / 2)
    let xn := (cx / (cz * t)) / aspect
    let yn := cy / (cz * t)
    if cz * t = 0 ∨ aspect = 0 then none
    else some { x := xn, y := yn }

/-- Screen state shared by both ScreenSpace variants: viewport width/height
in pixels and the zoom factor. -/
structure ScreenSpace where
  width : ℚ
  height : ℚ
  zoom : ℚ
deriving DecidableEq, Repr

/-- ScreenSpace.toPixels of the simplified variant (part_005): uniform scale
`(height/2) · zoom` on both axes, Y flipped. -/
def ScreenSpace.toPixels5 (s : ScreenSpace) (n : V2) : V2 :=
  let cx := s.width / 2
  let cy := s.height / 2
  let sc := s.height / 2 * s.zoom
  { x := cx + n.x * sc, y := cy - n.y * sc }

/-- ScreenSpace.toPixels of the richer variant
(src/src/models/objects/3d/screen-space.ts): x is scaled by `width/2`, y by
`height/2`, zoom applied around the center, Y flipped. -/
def ScreenSpace.toPixelsR (s : ScreenSpace) (n : V2) : V2 :=
  let centerX := s.width / 2
  let centerY := s.height / 2
  let x := n.x * centerX
  let y := -n.y * centerY
  { x := centerX + x * s.zoom, y := centerY + y * s.zoom }

/-- One iteration of the edge loop of Figure3D.draw (part_005): skip the edge
when either index is out of range for `verts`, project both endpoints, skip
when either is not visible, otherwise map both to pixels and emit a segment. -/
def edgeSegment (tanF : ℚ → ℚ) (camera : Cam5) (screen : ScreenSpace)
    (aspect : ℚ) (verts : List V3) (e : ℕ × ℕ) : Option (V2 × V2) :=
  if verts.length ≤ e.1 ∨ verts.length ≤ e.2 then none
  else
    match camera.projectNorm tanF (verts.getD e.1 ⟨0, 0, 0⟩) aspect,
          camera.projectNorm tanF (verts.getD e.2 ⟨0, 0, 0⟩) aspect with
    | some n1, some n2 => some (screen.toPixels5 n1, screen.toPixels5 n2)
    | _, _ => none

/-- Figure3D.draw (part_005): walk the edge list in order and collect the
line segments actually issued to the canvas. -/
def Figure3D.draw (tanF : ℚ → ℚ) (camera : Cam5) (screen : ScreenSpace)
    (aspect : ℚ) (fig : Figure3D) : List (V2 × V2) :=
  fig.edges.filterMap (edgeSegment tanF camera screen aspect fig.vertices)

/-- Cube constructor of part_006 (`new Cube(size, x, y, z)`): 8 base vertices
of a cube of edge `size` centered at the model-space origin, 12 edges,
initial yaw `π/4` and pitch `-π/6`, position `(x, y, z)`, followed by
updateTransform. -/
def Cube.mk6 (sinF cosF : ℚ → ℚ) (piQ size x y z : ℚ) : Figure3D :=
  let s := size / 2
  Figure3D.updateTransform sinF cosF
    { vertices := []
      base := [⟨-s, -s, s⟩, ⟨s, -s, s⟩, ⟨s, s, s⟩, ⟨-s, s, s⟩,
               ⟨-s, -s, -s⟩, ⟨s, -s, -s⟩, ⟨s, s, -s⟩, ⟨-s, s, -s⟩]
      center := ⟨0, 0, 0⟩
      yaw := piQ / 4
      pitch := -(piQ / 6)
      position := ⟨x, y, z⟩
      edges := [(0, 1), (1, 2), (2, 3), (3, 0),
                (4, 5), (5, 6), (6, 7), (7, 4),
                (0, 4), (1, 5), (2, 6), (3, 7)] }

/-- Cube constructor of part_005 (`new Cube()`): 8 base vertices of a cube of
edge 120 centered at `(0, 0, 400)`, pivot `(0, 0, 400)`, zero yaw/pitch and
position, 12 edges, followed by its updateTransform. -/
def Cube.mk5 (sinF cosF : ℚ → ℚ) : Figure3D :=
  Figure3D.updateTransform5 sinF cosF
    { vertices := []
      base := [⟨-60, -60, 340⟩, ⟨60, -60, 340⟩, ⟨-60, 60, 340⟩, ⟨60, 60, 340⟩,
               ⟨-60, -60, 460⟩, ⟨60, -60, 460⟩, ⟨-60, 60, 460⟩, ⟨60, 60, 460⟩]
      center := ⟨0, 0, 400⟩
      yaw := 0
      pitch := 0
      position := ⟨0, 0, 0⟩
      edges := [(0, 1), (1, 3), (3, 2), (2, 0),
                (4, 5), (5, 7), (7, 6), (6, 4),
                (0, 4), (1, 5), (2, 6), (3, 7)] }

/-- Minimal figure shape of src/src/models/objects/3d/cube.ts (its Figure3D
has only `vertices` and `edges`, with no transform state). -/
structure FigureS where
  vertices : List V3
  edges : List (ℕ × ℕ)
deriving DecidableEq, Repr

/-- Cube constructor of src/src/models/objects/3d/cube.ts (`new Cube()`):
8 vertices with coordinates in {0, 100} and z in {100, 200}, 12 edges. -/
def Cube.mkS : FigureS :=
  { vertices := [⟨0, 0, 100⟩, ⟨100, 0, 100⟩, ⟨0, 100, 100⟩, ⟨100, 100, 100⟩,
                 ⟨0, 0, 200⟩, ⟨100, 0, 200⟩, ⟨0, 100, 200⟩, ⟨100, 100, 200⟩]
    edges := [(0, 1), (1, 3), (3, 2), (2, 0),
              (4, 5), (5, 7), (7, 6), (6, 4),
              (0, 4), (1, 5), (2, 6), (3, 7)] }

/-- Cube.move (part_006): add the deltas to position, then updateTransform. -/
def Cube.move (sinF cosF : ℚ → ℚ) (fig : Figure3D) (dx dy dz : ℚ) : Figure3D :=
  Figure3D.updateTransform sinF cosF
    { fig with position := ⟨fig.position.x + dx, fig.position.y + dy, fig.position.z + dz⟩ }

/-- Cube.rotate (part_006): add the deltas to yaw and pitch, then
updateTransform. -/
def Cube.rotate (sinF cosF : ℚ → ℚ) (fig : Figure3D) (dYaw dPitch : ℚ) : Figure3D :=
  Figure3D.updateTransform sinF cosF
    { fig with yaw := fig.yaw + dYaw, pitch := fig.pitch + dPitch }

/-- A user interaction on a cube: a move or a rotate call. -/
inductive CubeOp where
  | move (dx dy dz : ℚ)
  | rot (dYaw dPitch : ℚ)
deriving DecidableEq, Repr

/-- Apply one interaction to a figure. -/
def applyOp (sinF cosF : ℚ → ℚ) (fig : Figure3D) : CubeOp → Figure3D
  | CubeOp.move dx dy dz => Cube.move sinF cosF fig dx dy dz
  | CubeOp.rot dYaw dPitch => Cube.rotate sinF cosF fig dYaw dPitch

/-- Apply a sequence of interactions left to right. -/
def applyOps (sinF cosF : ℚ → ℚ) (fig : Figure3D) (ops : List CubeOp) : Figure3D :=
  ops.foldl (applyOp sinF cosF) fig

/-! ## Theorems -/

/-- C1 counterexample: the claim asserts `x = width/2 + nx·(height/2)·zoom`
for every ScreenSpace, but the richer toPixels (screen-space.ts) at
width 800, height 600, zoom 1 maps the normalized point (1, 0) to x = 800,
not to the claimed 400 + 300 = 700. -/
theorem C1_toPixels_claim_false :
    ScreenSpace.toPixelsR ⟨800, 600, 1⟩ ⟨1, 0⟩ ≠ ⟨700, 300⟩ := by
  simp only [ScreenSpace.toPixelsR, ne_eq, V2.mk.injEq, not_and]
  intro h
  norm_num at h

/-- C1 (amended): the simplified toPixels (part_005) uses the uniform scale
`height/2` on both axes, while the richer toPixels (screen-space.ts) scales
x by `width/2` and y by `height/2`; Y is flipped in both. -/
theorem C1_toPixels_formulas (s : ScreenSpace) (n : V2) :
    (s.toPixels5 n).x = s.width / 2 + n.x * (s.height / 2) * s.zoom
    ∧ (s.toPixels5 n).y = s.height / 2 - n.y * (s.height / 2) * s.zoom
    ∧ (s.toPixelsR n).x = s.width / 2 + n.x * (s.width / 2) * s.zoom
    ∧ (s.toPixelsR n).y = s.height / 2 - n.y * (s.height / 2) * s.zoom := by
  refine ⟨?_, ?_, ?_, ?_⟩ <;>
    simp only [ScreenSpace.toPixels5, ScreenSpace.toPixelsR] <;> ring

/-- C2: updateTransform recomputes `vertices` purely from
(base, center, yaw, pitch, position) — the previous `vertices` value has no
influence — and stores, at every index `i`, the `i`-th base vertex rotated by
yaw about the Y axis through the center, then by pitch about the X axis
through the center, then translated by the position; this holds for the
figure-3d.ts chain and for the part_005 chain alike. -/
theorem C2_updateTransform_pure (sinF cosF : ℚ → ℚ) (fig : Figure3D) (vs : List V3) :
    Figure3D.updateTransform sinF cosF { fig with vertices := vs }
      = Figure3D.updateTransform sinF cosF fig
    ∧ (Figure3D.updateTransform sinF cosF fig).vertices.length = fig.base.length
    ∧ (∀ i : ℕ, (Figure3D.updateTransform sinF cosF fig).vertices[i]?
        = fig.base[i]?.map (fun v =>
            let r := WorldSpace.rotateX sinF cosF
              (WorldSpace.rotateY sinF cosF v fig.center fig.yaw) fig.center fig.pitch
            { x := r.x + fig.position.x, y := r.y + fig.position.y,
              z := r.z + fig.position.z }))
    ∧ Figure3D.updateTransform5 sinF cosF { fig with vertices := vs }
      = Figure3D.updateTransform5 sinF cosF fig
    ∧ (Figure3D.updateTransform5 sinF cosF fig).vertices.length = fig.base.length
    ∧ (∀ i : ℕ, (Figure3D.updateTransform5 sinF cosF fig).vertices[i]?
        = fig.base[i]?.map (fun v =>
            let r := Figure3D.rotX5 sinF cosF
              (Figure3D.rotY5 sinF cosF v fig.center fig.yaw) fig.center fig.pitch
            { x := r.x + fig.position.x, y := r.y + fig.position.y,
              z := r.z + fig.position.z })) := by
  refine ⟨rfl, by simp [Figure3D.updateTransform, Figure3D.applyTransform], ?_,
    rfl, by simp [Figure3D.updateTransform5, Figure3D.applyTransform5], ?_⟩ <;>
    intro i <;>
    simp only [Figure3D.updateTransform, Figure3D.applyTransform,
      Figure3D.updateTransform5, Figure3D.applyTransform5, List.getElem?_map] <;>
    cases fig.base[i]? <;> simp [Function.comp]

/-- C3 counterexample: with the richer projectNorm, a camera at the origin
(yaw 0, sin 0 = 0, cos 0 = 1), fovY = 90° (tan(fovY/2) = 1), aspect 1
(square 100×100 screen), near = 0.1 and far = 10⁶, the on-axis point
(0, 0, 10⁶) has depth 10⁶ > near, yet projectNorm returns none (the far
clip), not the claimed normalized point (0, 0). -/
theorem C3_claim_false :
    CameraEye.projectNorm (fun _ => 0) (fun _ => 1) (fun _ => 1)
      ⟨⟨0, 0, 0⟩, 0, 0, 157 / 100, 1 / 10, 1000000, 100, 100⟩ ⟨0, 0, 1000000⟩ = none
    ∧ (1 / 10 : ℚ) < 1000000 := by
  constructor
  · simp only [CameraEye.projectNorm]
    norm_num
  · norm_num

/-- C3 (amended): for a camera at the origin with yaw 0, fovY = 90°
(tan(fovY/2) = 1) and aspect ratio 1, the richer projectNorm maps the
on-axis world point (0, 0, Z) to the normalized point (0, 0) for every Z
strictly between near and far; the simplified variant maps it to (0, 0) for
every Z > 0 (given nonzero focal factor and aspect). -/
theorem C3_on_axis (sinF cosF tanF : ℚ → ℚ) (c : CameraEye) (Z : ℚ)
    (hpos : c.position = ⟨0, 0, 0⟩) (hyaw : c.yaw = 0)
    (hsin : sinF 0 = 0) (hcos : cosF 0 = 1)
    (htan : tanF (c.fovY / 2) = 1)
    (hsq : c.screenWidth = c.screenHeight) (hh : c.screenHeight ≠ 0)
    (hnear0 : 0 ≤ c.near) (hZn : c.near < Z) (hZf : Z < c.far) :
    CameraEye.projectNorm sinF cosF tanF c ⟨0, 0, Z⟩ = some ⟨0, 0, Z⟩
    ∧ ∀ (tanG : ℚ → ℚ) (cam : Cam5) (Z2 aspect : ℚ), cam.position = ⟨0, 0, 0⟩ →
        0 < Z2 → tanG (cam.fovY / 2) ≠ 0 → aspect ≠ 0 →
        Cam5.projectNorm tanG cam ⟨0, 0, Z2⟩ aspect = some ⟨0, 0⟩ := by
  have hZpos : 0 < Z := lt_of_le_of_lt hnear0 hZn
  constructor
  · simp only [CameraEye.projectNorm, hpos, hyaw, hsin, hcos, htan, hsq,
      div_self hh]
    norm_num [not_le.mpr hZn, not_le.mpr hZf, hZpos.ne']
  · intro tanG cam Z2 aspect hc hZ2 ht ha
    simp only [Cam5.projectNorm, hc]
    norm_num [hZ2, mul_ne_zero hZ2.ne' ht, ha]

/-- C3 witness: the amended theorem applied to a concrete camera
(origin, yaw 0, fovY 90°, near 0.1, far 10⁶, square screen) and Z = 400. -/
theorem C3_on_axis_witness :
    CameraEye.projectNorm (fun _ => 0) (fun _ => 1) (fun _ => 1)
      ⟨⟨0, 0, 0⟩, 0, 0, 157 / 100, 1 / 10, 1000000, 100, 100⟩ ⟨0, 0, 400⟩
      = some ⟨0, 0, 400⟩ :=
  (C3_on_axis (fun _ => 0) (fun _ => 1) (fun _ => 1)
    ⟨⟨0, 0, 0⟩, 0, 0, 157 / 100, 1 / 10, 1000000, 100, 100⟩ 400
    rfl rfl rfl rfl rfl rfl (by norm_num) (by norm_num) (by norm_num)
    (by norm_num)).1

/-- C4: the richer projectNorm returns none whenever the camera-relative
depth is ≤ near or ≥ far, and returns a point only when the depth is
strictly between near and far; the simplified variant returns none whenever
the depth is ≤ 0 and returns a point only when the depth is positive. -/
theorem C4_depth_gate (sinF cosF tanF : ℚ → ℚ) (c : CameraEye) (v : V3) :
    (CameraEye.depth sinF cosF c v ≤ c.near ∨ c.far ≤ CameraEye.depth sinF cosF c v →
      CameraEye.projectNorm sinF cosF tanF c v = none)
    ∧ (∀ r : ProjResult, CameraEye.projectNorm sinF cosF tanF c v = some r →
        c.near < CameraEye.depth sinF cosF c v ∧ CameraEye.depth sinF cosF c v < c.far)
    ∧ (∀ (tanG : ℚ → ℚ) (cam : Cam5) (p : V3) (aspect : ℚ),
        p.z - cam.position.z ≤ 0 → Cam5.projectNorm tanG cam p aspect = none)
    ∧ (∀ (tanG : ℚ → ℚ) (cam : Cam5) (p : V3) (aspect : ℚ) (q : V2),
        Cam5.projectNorm tanG cam p aspect = some q → 0 < p.z - cam.position.z) := by
  refine ⟨?_, ?_, ?_, ?_⟩
  · intro h
    simp only [CameraEye.projectNorm, ge_iff_le]
    rw [if_pos]
    exact h
  · intro r h
    simp only [CameraEye.projectNorm, ge_iff_le, CameraEye.depth] at h ⊢
    split_ifs at h with h1 h2 h3
    push_neg at h1
    exact h1
  · intro tanG cam p aspect h
    simp only [Cam5.projectNorm]
    rw [if_pos (not_lt.mpr h)]
  · intro tanG cam p aspect q h
    simp only [Cam5.projectNorm] at h
    split_ifs at h with h1 h2
    exact h1

/-- C4 witness: the depth gate of the richer projectNorm at a concrete
camera and a vertex at depth 2·10⁶ ≥ far = 10⁶. -/
theorem C4_depth_gate_witness :
    CameraEye.projectNorm (fun _ => 0) (fun _ => 1) (fun _ => 1)
      ⟨⟨0, 0, 0⟩, 0, 0, 157 / 100, 1 / 10, 1000000, 100, 100⟩ ⟨0, 0, 2000000⟩
      = none :=
  (C4_depth_gate (fun _ => 0) (fun _ => 1) (fun _ => 1)
    ⟨⟨0, 0, 0⟩, 0, 0, 157 / 100, 1 / 10, 1000000, 100, 100⟩ ⟨0, 0, 2000000⟩).1
    (Or.inr (by norm_num [CameraEye.depth]))

/-- C6: a vertex located exactly at the camera's position has depth 0 and is
rejected by projectNorm (given the near bound is nonnegative, as it is with
the default 0.1); the simplified variant rejects it unconditionally, so no
division-by-zero value is ever surfaced to the renderer. -/
theorem C6_camera_position_rejected (sinF cosF tanF : ℚ → ℚ) (c : CameraEye)
    (hnear : 0 ≤ c.near) :
    CameraEye.projectNorm sinF cosF tanF c c.position = none
    ∧ ∀ (tanG : ℚ → ℚ) (cam : Cam5) (aspect : ℚ),
        Cam5.projectNorm tanG cam cam.position aspect = none := by
  constructor
  · simp only [CameraEye.projectNorm, sub_self, zero_mul, sub_zero]
    rw [if_pos (Or.inl hnear)]
  · intro tanG cam aspect
    simp only [Cam5.projectNorm, sub_self]
    rw [if_pos (lt_irrefl 0)]

/-- C6 witness: a camera away from the origin with the default near = 0.1,
applied to a vertex at its own position. -/
theorem C6_camera_position_rejected_witness :
    CameraEye.projectNorm (fun _ => 0) (fun _ => 1) (fun _ => 1)
      ⟨⟨5, 6, 7⟩, 0, 0, 157 / 100, 1 / 10, 1000000, 800, 600⟩ ⟨5, 6, 7⟩ = none :=
  (C6_camera_position_rejected (fun _ => 0) (fun _ => 1) (fun _ => 1)
    ⟨⟨5, 6, 7⟩, 0, 0, 157 / 100, 1 / 10, 1000000, 800, 600⟩ (by norm_num)).1

/-- C5: for any figure whose vertices satisfy the transform invariant,
rotating by (dYaw, dPitch) and then by (-dYaw, -dPitch) returns the vertices
exactly to their pre-rotation values: the absolute yaw/pitch state returns
to its original value and updateTransform recomputes vertices from base. -/
theorem C5_rotate_roundtrip (sinF cosF : ℚ → ℚ) (fig : Figure3D) (dYaw dPitch : ℚ)
    (hWF : fig.vertices = (Figure3D.updateTransform sinF cosF fig).vertices) :
    (Cube.rotate sinF cosF (Cube.rotate sinF cosF fig dYaw dPitch)
      (-dYaw) (-dPitch)).vertices = fig.vertices := by
  rw [hWF]
  simp only [Cube.rotate, Figure3D.updateTransform, Figure3D.applyTransform,
    add_neg_cancel_right]

/-- C5 witness: a concrete well-formed figure (identity trig functions at
angle 0) rotated by (5, 7) and back by (-5, -7). -/
theorem C5_rotate_roundtrip_witness :
    (Cube.rotate (fun _ => 0) (fun _ => 1)
      (Cube.rotate (fun _ => 0) (fun _ => 1)
        ⟨[⟨1, 2, 3⟩], [⟨1, 2, 3⟩], ⟨0, 0, 0⟩, 0, 0, ⟨0, 0, 0⟩, [(0, 0)]⟩ 5 7)
      (-5) (-7)).vertices = [⟨(1 : ℚ), 2, 3⟩] :=
  C5_rotate_roundtrip (fun _ => 0) (fun _ => 1)
    ⟨[⟨1, 2, 3⟩], [⟨1, 2, 3⟩], ⟨0, 0, 0⟩, 0, 0, ⟨0, 0, 0⟩, [(0, 0)]⟩ 5 7
    (by simp [Figure3D.updateTransform, Figure3D.applyTransform,
      WorldSpace.rotateX, WorldSpace.rotateY])

/-- C7: during the edge walk of draw, an edge with an out-of-range vertex
index contributes nothing and does not stop the walk: inserting a malformed
edge anywhere in the edge list leaves the emitted segments exactly those of
the list without it. -/
theorem C7_malformed_edge_skipped (tanF : ℚ → ℚ) (cam : Cam5) (s : ScreenSpace)
    (aspect : ℚ) (fig : Figure3D) (es1 es2 : List (ℕ × ℕ)) (a b : ℕ)
    (hbad : fig.vertices.length ≤ a ∨ fig.vertices.length ≤ b) :
    Figure3D.draw tanF cam s aspect { fig with edges := es1 ++ (a, b) :: es2 }
      = Figure3D.draw tanF cam s aspect { fig with edges := es1 ++ es2 } := by
  have hnone : edgeSegment tanF cam s aspect fig.vertices (a, b) = none := by
    simp only [edgeSegment]
    rw [if_pos hbad]
  simp only [Figure3D.draw, List.filterMap_append, List.filterMap_cons, hnone]

/-- C7 witness: a one-vertex figure with a dangling edge (5, 0) inserted
between two copies of the valid edge (0, 0). -/
theorem C7_malformed_edge_skipped_witness :
    Figure3D.draw (fun _ => 1) ⟨⟨0, 0, 0⟩, 2⟩ ⟨100, 100, 1⟩ 1
      ⟨[⟨0, 0, 50⟩], [], ⟨0, 0, 0⟩, 0, 0, ⟨0, 0, 0⟩, [(0, 0), (5, 0), (0, 0)]⟩
      = Figure3D.draw (fun _ => 1) ⟨⟨0, 0, 0⟩, 2⟩ ⟨100, 100, 1⟩ 1
      ⟨[⟨0, 0, 50⟩], [], ⟨0, 0, 0⟩, 0, 0, ⟨0, 0, 0⟩, [(0, 0), (0, 0)]⟩ :=
  C7_malformed_edge_skipped (fun _ => 1) ⟨⟨0, 0, 0⟩, 2⟩ ⟨100, 100, 1⟩ 1
    ⟨[⟨0, 0, 50⟩], [], ⟨0, 0, 0⟩, 0, 0, ⟨0, 0, 0⟩, []⟩ [(0, 0)] [(0, 0)] 5 0
    (Or.inl (by norm_num))

/-- C8: after any rotatePitch call (from any starting pitch and any delta)
the camera's pitch satisfies |pitch| ≤ π/2 - 0.01, and rotatePitch and
rotateYaw leave the projection state (position, fovY, near, far and the
screen dimensions) untouched. -/
theorem C8_pitch_clamped (piQ : ℚ) (c : CameraEye) (d : ℚ)
    (hpi : 0 ≤ piQ / 2 - 1 / 100) :
    |(CameraEye.rotatePitch piQ c d).pitch| ≤ piQ / 2 - 1 / 100
    ∧ (CameraEye.rotatePitch piQ c d).position = c.position
    ∧ (CameraEye.rotatePitch piQ c d).fovY = c.fovY
    ∧ (CameraEye.rotatePitch piQ c d).near = c.near
    ∧ (CameraEye.rotatePitch piQ c d).far = c.far
    ∧ (CameraEye.rotatePitch piQ c d).screenWidth = c.screenWidth
    ∧ (CameraEye.rotatePitch piQ c d).screenHeight = c.screenHeight
    ∧ (CameraEye.rotatePitch piQ c d).yaw = c.yaw
    ∧ (CameraEye.rotateYaw piQ c d).position = c.position
    ∧ (CameraEye.rotateYaw piQ c d).fovY = c.fovY
    ∧ (CameraEye.rotateYaw piQ c d).near = c.near
    ∧ (CameraEye.rotateYaw piQ c d).far = c.far
    ∧ (CameraEye.rotateYaw piQ c d).screenWidth = c.screenWidth
    ∧ (CameraEye.rotateYaw piQ c d).screenHeight = c.screenHeight
    ∧ (CameraEye.rotateYaw piQ c d).pitch = c.pitch := by
  refine ⟨?_, rfl, rfl, rfl, rfl, rfl, rfl, rfl, rfl, rfl, rfl, rfl, rfl, rfl, rfl⟩
  simp only [CameraEye.rotatePitch]
  rw [abs_le]
  constructor
  · exact le_max_right _ _
  · exact max_le (min_le_right _ _) (by linarith)

/-- C8 witness: the clamp bound at π approximated by 3.14 and a large
positive delta from pitch 0. -/
theorem C8_pitch_clamped_witness :
    |(CameraEye.rotatePitch (157 / 50)
      ⟨⟨0, 0, 0⟩, 0, 0, 157 / 100, 1 / 10, 1000000, 800, 600⟩ 100).pitch|
      ≤ 157 / 50 / 2 - 1 / 100 :=
  (C8_pitch_clamped (157 / 50)
    ⟨⟨0, 0, 0⟩, 0, 0, 157 / 100, 1 / 10, 1000000, 800, 600⟩ 100
    (by norm_num)).1

/-- C9: WorldSpace.rotateY preserves the squared distance to the pivot and
leaves the Y coordinate unchanged, WorldSpace.rotateX preserves the squared
distance and leaves the X coordinate unchanged (given sin² + cos² = 1 at the
angle), and rotating the pivot about itself is the identity. -/
theorem C9_rotation_isometry (sinF cosF : ℚ → ℚ) (p c : V3) (a : ℚ)
    (hpyth : sinF a ^ 2 + cosF a ^ 2 = 1) :
    sqDist (WorldSpace.rotateY sinF cosF p c a) c = sqDist p c
    ∧ (WorldSpace.rotateY sinF cosF p c a).y = p.y
    ∧ sqDist (WorldSpace.rotateX sinF cosF p c a) c = sqDist p c
    ∧ (WorldSpace.rotateX sinF cosF p c a).x = p.x
    ∧ WorldSpace.rotateY sinF cosF c c a = c
    ∧ WorldSpace.rotateX sinF cosF c c a = c := by
  refine ⟨?_, rfl, ?_, rfl, ?_, ?_⟩
  · simp only [sqDist, WorldSpace.rotateY]
    ring_nf
    linear_combination ((p.x - c.x) ^ 2 + (p.z - c.z) ^ 2) * hpyth
  · simp only [sqDist, WorldSpace.rotateX]
    ring_nf
    linear_combination ((p.y - c.y) ^ 2 + (p.z - c.z) ^ 2) * hpyth
  · simp only [WorldSpace.rotateY, sub_self, zero_mul, sub_zero, add_zero,
      zero_add, zero_sub, mul_zero]
  · simp only [WorldSpace.rotateX, sub_self, zero_mul, sub_zero, add_zero,
      zero_add, zero_sub, mul_zero]

/-- C9 witness: the Pythagorean pair sin = 3/5, cos = 4/5 at a concrete
point and pivot. -/
theorem C9_rotation_isometry_witness :
    sqDist (WorldSpace.rotateY (fun _ => 3 / 5) (fun _ => 4 / 5) ⟨2, 1, 0⟩ ⟨1, 1, 1⟩ 9)
      ⟨1, 1, 1⟩ = sqDist ⟨2, 1, 0⟩ ⟨1, 1, 1⟩ :=
  (C9_rotation_isometry (fun _ => 3 / 5) (fun _ => 4 / 5) ⟨2, 1, 0⟩ ⟨1, 1, 1⟩ 9
    (by norm_num)).1

/-- One move or rotate call keeps base and edges and makes the vertex count
equal to the base count (updateTransform rebuilds vertices by mapping base). -/
lemma applyOp_invariant (sinF cosF : ℚ → ℚ) (fig : Figure3D) (op : CubeOp) :
    (applyOp sinF cosF fig op).base = fig.base
    ∧ (applyOp sinF cosF fig op).edges = fig.edges
    ∧ (applyOp sinF cosF fig op).vertices.length = fig.base.length := by
  cases op <;>
    simp [applyOp, Cube.move, Cube.rotate, Figure3D.updateTransform,
      Figure3D.applyTransform]

/-- Any sequence of move/rotate calls keeps the base, the edges, and the
agreement between vertex count and base count. -/
lemma applyOps_invariant (sinF cosF : ℚ → ℚ) (ops : List CubeOp) (fig : Figure3D)
    (h : fig.vertices.length = fig.base.length) :
    (applyOps sinF cosF fig ops).base = fig.base
    ∧ (applyOps sinF cosF fig ops).edges = fig.edges
    ∧ (applyOps sinF cosF fig ops).vertices.length = fig.base.length := by
  induction ops generalizing fig with
  | nil => exact ⟨rfl, rfl, h⟩
  | cons op ops ih =>
    obtain ⟨hb, he, hv⟩ := applyOp_invariant sinF cosF fig op
    have hlen : (applyOp sinF cosF fig op).vertices.length
        = (applyOp sinF cosF fig op).base.length := by rw [hv, hb]
    obtain ⟨ihb, ihe, ihv⟩ := ih (applyOp sinF cosF fig op) hlen
    have hstep : applyOps sinF cosF fig (op :: ops)
        = applyOps sinF cosF (applyOp sinF cosF fig op) ops := rfl
    rw [hstep]
    exact ⟨ihb.trans hb, ihe.trans he, by rw [ihv, hb]⟩

/-- C10: every Cube constructor (part_006 with any size and position,
part_005, and the plain cube.ts variant) produces exactly 8 base vertices
and 12 edges whose indices lie in [0, 8); after any sequence of move and
rotate calls the derived vertices keep length 8, so every edge index stays
in range and the out-of-range skip branch of draw is unreachable. -/
theorem C10_cube_wellformed (sinF cosF : ℚ → ℚ) (piQ size x y z : ℚ)
    (ops : List CubeOp) :
    (Cube.mk6 sinF cosF piQ size x y z).base.length = 8
    ∧ (Cube.mk6 sinF cosF piQ size x y z).edges.length = 12
    ∧ (∀ e ∈ (Cube.mk6 sinF cosF piQ size x y z).edges, e.1 < 8 ∧ e.2 < 8)
    ∧ (applyOps sinF cosF (Cube.mk6 sinF cosF piQ size x y z) ops).vertices.length = 8
    ∧ (applyOps sinF cosF (Cube.mk6 sinF cosF piQ size x y z) ops).edges
        = (Cube.mk6 sinF cosF piQ size x y z).edges
    ∧ (∀ e ∈ (applyOps sinF cosF (Cube.mk6 sinF cosF piQ size x y z) ops).edges,
        e.1 < (applyOps sinF cosF (Cube.mk6 sinF cosF piQ size x y z) ops).vertices.length
        ∧ e.2 < (applyOps sinF cosF (Cube.mk6 sinF cosF piQ size x y z) ops).vertices.length)
    ∧ (Cube.mk5 sinF cosF).base.length = 8
    ∧ (Cube.mk5 sinF cosF).edges.length = 12
    ∧ (∀ e ∈ (Cube.mk5 sinF cosF).edges,
        e.1 < (Cube.mk5 sinF cosF).vertices.length
        ∧ e.2 < (Cube.mk5 sinF cosF).vertices.length)
    ∧ Cube.mkS.vertices.length = 8
    ∧ Cube.mkS.edges.length = 12
    ∧ (∀ e ∈ Cube.mkS.edges,
        e.1 < Cube.mkS.vertices.length ∧ e.2 < Cube.mkS.vertices.length) := by
  have hbase : (Cube.mk6 sinF cosF piQ size x y z).base
      = [⟨-(size / 2), -(size / 2), size / 2⟩, ⟨size / 2, -(size / 2), size / 2⟩,
         ⟨size / 2, size / 2, size / 2⟩, ⟨-(size / 2), size / 2, size / 2⟩,
         ⟨-(size / 2), -(size / 2), -(size / 2)⟩, ⟨size / 2, -(size / 2), -(size / 2)⟩,
         ⟨size / 2, size / 2, -(size / 2)⟩, ⟨-(size / 2), size / 2, -(size / 2)⟩] := by
    simp [Cube.mk6, Figure3D.updateTransform, Figure3D.applyTransform]
  have hedges : (Cube.mk6 sinF cosF piQ size x y z).edges
      = [(0, 1), (1, 2), (2, 3), (3, 0), (4, 5), (5, 6), (6, 7), (7, 4),
         (0, 4), (1, 5), (2, 6), (3, 7)] := by
    simp [Cube.mk6, Figure3D.updateTransform, Figure3D.applyTransform]
  have hvlen : (Cube.mk6 sinF cosF piQ size x y z).vertices.length
      = (Cube.mk6 sinF cosF piQ size x y z).base.length := by
    simp [Cube.mk6, Figure3D.updateTransform, Figure3D.applyTransform]
  obtain ⟨ob, oe, ov⟩ := applyOps_invariant sinF cosF ops
    (Cube.mk6 sinF cosF piQ size x y z) hvlen
  have hblen : (Cube.mk6 sinF cosF piQ size x y z).base.length = 8 := by
    rw [hbase]; rfl
  have hoplen : (applyOps sinF cosF (Cube.mk6 sinF cosF piQ size x y z) ops).vertices.length
      = 8 := by rw [ov, hblen]
  refine ⟨hblen, by rw [hedges]; rfl, ?_, hoplen, oe, ?_, ?_, ?_, ?_, rfl, rfl, ?_⟩
  · rw [hedges]; decide
  · intro e he
    rw [oe, hedges] at he
    rw [hoplen]
    exact (by decide : ∀ e ∈ [(0, 1), (1, 2), (2, 3), (3, 0), (4, 5), (5, 6),
      (6, 7), (7, 4), (0, 4), (1, 5), (2, 6), (3, 7)], e.1 < 8 ∧ e.2 < 8) e he
  · simp [Cube.mk5, Figure3D.updateTransform5, Figure3D.applyTransform5]
  · simp [Cube.mk5, Figure3D.updateTransform5, Figure3D.applyTransform5]
  · intro e he
    have hv5 : (Cube.mk5 sinF cosF).vertices.length = 8 := by
      simp [Cube.mk5, Figure3D.updateTransform5, Figure3D.applyTransform5]
    have he5 : (Cube.mk5 sinF cosF).edges
        = [(0, 1), (1, 3), (3, 2), (2, 0), (4, 5), (5, 7), (7, 6), (6, 4),
           (0, 4), (1, 5), (2, 6), (3, 7)] := by
      simp [Cube.mk5, Figure3D.updateTransform5, Figure3D.applyTransform5]
    rw [he5] at he
    rw [hv5]
    exact (by decide : ∀ e ∈ [(0, 1), (1, 3), (3, 2), (2, 0), (4, 5), (5, 7),
      (7, 6), (6, 4), (0, 4), (1, 5), (2, 6), (3, 7)], e.1 < 8 ∧ e.2 < 8) e he
  · intro e he
    exact (by decide : ∀ e ∈ [(0, 1), (1, 3), (3, 2), (2, 0), (4, 5), (5, 7),
      (7, 6), (6, 4), (0, 4), (1, 5), (2, 6), (3, 7)], e.1 < 8 ∧ e.2 < 8) e he

/-- C10 witness: the vertex count after a concrete drag session (a rotate
and a move) on a size-120 cube positioned at z = 400. -/
theorem C10_cube_wellformed_witness :
    (applyOps (fun _ => 0) (fun _ => 1)
      (Cube.mk6 (fun _ => 0) (fun _ => 1) (157 / 50) 120 0 0 400)
      [CubeOp.rot 1 2, CubeOp.move 3 4 0]).vertices.length = 8 :=
  (C10_cube_wellformed (fun _ => 0) (fun _ => 1) (157 / 50) 120 0 0 400
    [CubeOp.rot 1 2, CubeOp.move 3 4 0]).2.2.2.1

end CubeRepo
